import Mathlib

/-
Verification of the checkout/check-in core of the library-catalog manager.

The Python sources embedded here:
  - src/domain/checkout_history.py   (CheckoutRecord, _to_iso, _from_iso)
  - src/repositories/book_repository.py          (BookRepository.update_book)
  - src/repositories/checkout_history_repository.py (get_all_records, update_record)
  - src/services/book_service.py     (check_out, check_in, build_books_from_input)

Modelling conventions:
  - Timestamps are modelled as their ISO-8601 string encodings (the code only
    ever stores and compares them through that encoding); `datetime.utcnow()`
    is an explicit `now : String` parameter, and `uuid.uuid4()` an explicit
    fresh-identifier parameter.
  - Python dynamic values flowing through `update` field mappings are a small
    dynamic type `Value`; Python truthiness is `Value.truthy`.
  - Raised exceptions become `Except Err` results; partial effects performed
    before a raise are kept by returning the mutated state alongside the error.
  - The JSON files backing the two stores are modelled as the lists they
    decode to: the book store as `List Book`, the checkout-history store as
    the raw list of dictionaries `List RecordDict` (the history layer parses
    on every read, which is observable — see CheckoutRecord.fromDict).
-/

/-- A dynamic (Python-style) value. -/
inductive Value where
  | none : Value
  | bool (b : Bool) : Value
  | int (n : Int) : Value
  | str (s : String) : Value
deriving DecidableEq, Repr

/-- Python truthiness for `Value`. -/
def Value.truthy : Value → Bool
  | .none => false
  | .bool b => b
  | .int n => n ≠ 0
  | .str s => s ≠ ""

/-- Error kinds raised by the embedded code, named after the Python exceptions
(the spec's taxonomy maps `typeError` to InvalidInput, `bookNotFound` to
NotFound, `invalidState` to InvalidStateTransition). -/
inductive Err where
  | typeError : Err
  | bookNotFound : Err
  | invalidState : Err
deriving DecidableEq, Repr

/-- Modelled from the spec: `src/domain/book.py` is not present under src/
(only imported by the service, repository and tests).  Fields follow spec §3:
`book_id` immutable identity; the remaining attributes are dynamic values so
that the repository's untyped `setattr` updates can be represented. -/
structure Book where
  book_id : String
  title : Value := .none
  author : Value := .none
  genre : Value := .none
  price_usd : Value := .none
  average_rating : Value := .none
  ratings_count : Value := .none
  publication_year : Value := .none
  available : Value := .bool true
  last_checkout : Value := .none
deriving DecidableEq, Repr

/-- Modelled from the spec: `Book.check_out` (src/domain/book.py missing).
Spec §4.3 step 2-3: verify state is Available (explicit availability check on
the record), fail with InvalidStateTransition if already CheckedOut, else
transition to CheckedOut. -/
def Book.check_out (b : Book) : Except Err Book :=
  if b.available.truthy then .ok { b with available := .bool false }
  else .error .invalidState

/-- Modelled from the spec: `Book.check_in` (src/domain/book.py missing).
Spec §4.3: verify state is CheckedOut, fail with InvalidStateTransition if
already Available, else transition to Available (no timestamp change). -/
def Book.check_in (b : Book) : Except Err Book :=
  if b.available.truthy then .error .invalidState
  else .ok { b with available := .bool true }

/-- The attribute names of the Book record type (spec §3); `hasattr` on the
spec-modelled Book is membership in this list. -/
def bookFieldNames : List String :=
  ["book_id", "title", "author", "genre", "price_usd", "average_rating",
   "ratings_count", "publication_year", "available", "last_checkout"]

/-- Python setattr(b, k, v) for the attributes of Book other than the identity;
an unknown attribute name leaves the record unchanged (the repository only
calls this after a `hasattr` check, mirrored by the final branch). -/
def Book.setField (b : Book) (k : String) (v : Value) : Book :=
  if k = "title" then { b with title := v }
  else if k = "author" then { b with author := v }
  else if k = "genre" then { b with genre := v }
  else if k = "price_usd" then { b with price_usd := v }
  else if k = "average_rating" then { b with average_rating := v }
  else if k = "ratings_count" then { b with ratings_count := v }
  else if k = "publication_year" then { b with publication_year := v }
  else if k = "available" then { b with available := v }
  else if k = "last_checkout" then { b with last_checkout := v }
  else b

/-- The inner loop of `BookRepository.update_book`: for each mapping entry,
skip the key "book_id", and apply the value when the key is an existing
attribute (`hasattr`). -/
def applyEntries (b : Book) (entries : List (String × Value)) : Book :=
  entries.foldl
    (fun acc kv =>
      if kv.1 = "book_id" then acc
      else if bookFieldNames.contains kv.1 then acc.setField kv.1 kv.2
      else acc)
    b

/-- The `for b in books: if b.book_id == book_id: ...; break` loop of
`BookRepository.update_book`: mutate the first matching record, report
whether a match was found. -/
def updateLoop (books : List Book) (bid : String) (entries : List (String × Value)) :
    Bool × List Book :=
  match books with
  | [] => (false, [])
  | b :: rest =>
      if b.book_id == bid then (true, applyEntries b entries :: rest)
      else
        let r := updateLoop rest bid entries
        (r.1, b :: r.2)

/-- A Python argument that is either a `dict` of field updates or some other
value (for modelling the `isinstance(data, dict)` check). -/
inductive Data where
  | dict (entries : List (String × Value)) : Data
  | other (v : Value) : Data

/-- Embeds BookRepository.update_book (src/repositories/book_repository.py):
raises TypeError when `data` is not a dict; otherwise updates the first
matching record in place and rewrites the store, returning False (and
performing no write) when no record matches. -/
def BookRepository.update_book (books : List Book) (bid : String) (data : Data) :
    Except Err (Bool × List Book) :=
  match data with
  | .other _ => .error .typeError
  | .dict entries =>
      let r := updateLoop books bid entries
      if r.1 then .ok (true, r.2) else .ok (false, books)

/-- One JSON object of the checkout-history file
(src/domain/checkout_history.py `to_dict` keys).  `data.get(k)` returns None
both when the key is absent and when it is null, so both are `Option.none`
here; `book_id` is accessed with `data["book_id"]` and is kept required. -/
structure RecordDict where
  record_id : Option String := none
  book_id : String
  user_id : Option String := none
  checkout_at : Option String := none
  returned_at : Option String := none
  notes : Option String := none
deriving DecidableEq, Repr

/-- Embeds _from_iso (src/domain/checkout_history.py line 9): returns None on a
falsy argument (None or the empty string); parsing of a well-formed ISO
string is the identity under the string encoding of timestamps. -/
def fromIso : Option String → Option String
  | Option.none => Option.none
  | some s => if s = "" then Option.none else some s

/-- Embeds _to_iso (src/domain/checkout_history.py line 6). -/
def toIso : Option String → Option String
  | Option.none => Option.none
  | some s => some s

/-- The `CheckoutRecord` dataclass (src/domain/checkout_history.py lines
12-19): `checkout_at` defaults to `datetime.utcnow()` and `record_id` to a
fresh uuid, both supplied as explicit parameters at each construction site. -/
structure CheckoutRecord where
  book_id : String
  user_id : Option String := none
  checkout_at : String
  returned_at : Option String := none
  notes : Option String := none
  record_id : String
deriving DecidableEq, Repr

/-- Embeds CheckoutRecord.mark_returned (line 21): returned_at or utcnow(). -/
def CheckoutRecord.mark_returned (r : CheckoutRecord) (now : String)
    (returned_at : Option String := none) : CheckoutRecord :=
  { r with returned_at := some ((fromIso returned_at).getD now) }

/-- Embeds CheckoutRecord.is_returned (line 24). -/
def CheckoutRecord.is_returned (r : CheckoutRecord) : Bool :=
  r.returned_at.isSome

/-- Embeds CheckoutRecord.to_dict (lines 27-35). -/
def CheckoutRecord.to_dict (r : CheckoutRecord) : RecordDict :=
  { record_id := some r.record_id
    book_id := r.book_id
    user_id := r.user_id
    checkout_at := toIso (some r.checkout_at)
    returned_at := toIso r.returned_at
    notes := r.notes }

/-- Embeds CheckoutRecord.from_dict (lines 37-46): a missing or null
`checkout_at` is replaced by the current wall-clock time `now`, and a
missing or falsy `record_id` by a fresh uuid `fresh`. -/
def CheckoutRecord.from_dict (now fresh : String) (d : RecordDict) : CheckoutRecord :=
  { book_id := d.book_id
    user_id := d.user_id
    checkout_at := (fromIso d.checkout_at).getD now
    returned_at := fromIso d.returned_at
    notes := d.notes
    record_id :=
      match d.record_id with
      | Option.none => fresh
      | some s => if s = "" then fresh else s }

/-- The field names accepted by the generated `CheckoutRecord.__init__`. -/
def checkoutRecordFieldNames : List String :=
  ["book_id", "user_id", "checkout_at", "returned_at", "notes", "record_id"]

/-- Keyword construction of the `CheckoutRecord` dataclass: Python raises
TypeError when any keyword argument is not a field of the dataclass;
otherwise each present field takes the (string) keyword value and the
absent ones take their defaults (`now` for `checkout_at`, `fresh` for
`record_id`). -/
def CheckoutRecord.mkKw (now fresh : String) (kwargs : List (String × Value)) :
    Except Err CheckoutRecord :=
  if kwargs.all (fun kv => checkoutRecordFieldNames.contains kv.1) then
    let getS : String → Option String := fun k =>
      match (kwargs.find? (fun kv => kv.1 == k)).map (·.2) with
      | some (Value.str s) => some s
      | _ => Option.none
    .ok { book_id := (getS "book_id").getD ""
          user_id := getS "user_id"
          checkout_at := (getS "checkout_at").getD now
          returned_at := getS "returned_at"
          notes := getS "notes"
          record_id := (getS "record_id").getD fresh }
  else .error .typeError

/-- Recursion of CheckoutHistoryRepository.get_all_records
(src/repositories/checkout_history_repository.py lines 23-25): parse every
stored dictionary; `now` is the wall-clock time of this read and `fresh`
supplies the uuids drawn for records lacking one. -/
def getAllRecordsGo (now : String) (fresh : Nat → String) :
    Nat → List RecordDict → List CheckoutRecord
  | _, [] => []
  | i, d :: ds => CheckoutRecord.from_dict now (fresh i) d :: getAllRecordsGo now fresh (i + 1) ds

/-- Body of CheckoutHistoryRepository.get_all_records: parse every stored
dictionary, drawing one fresh uuid per position. -/
def CheckoutHistoryRepository.get_all_records (now : String) (fresh : Nat → String)
    (file : List RecordDict) : List CheckoutRecord :=
  getAllRecordsGo now fresh 0 file

/-- Embeds CheckoutHistoryRepository.update_record (lines 62-85): operates on the
raw stored dictionaries, skipping the key "record_id"; only the first
matching record is modified, and nothing is written when no record
matches.  Only string-valued updates occur in this codebase, so the
datetime-to-iso conversion branch is the identity here. -/
def CheckoutHistoryRepository.update_record (file : List RecordDict)
    (record_id : String) (data : List (String × Option String)) :
    Bool × List RecordDict :=
  match file with
  | [] => (false, [])
  | d :: rest =>
      if d.record_id == some record_id then
        (true, (data.foldl
          (fun acc kv =>
            if kv.1 = "record_id" then acc
            else if kv.1 = "book_id" then { acc with book_id := (kv.2).getD acc.book_id }
            else if kv.1 = "user_id" then { acc with user_id := kv.2 }
            else if kv.1 = "checkout_at" then { acc with checkout_at := kv.2 }
            else if kv.1 = "returned_at" then { acc with returned_at := kv.2 }
            else if kv.1 = "notes" then { acc with notes := kv.2 }
            else acc)
          d) :: rest)
      else
        let r := CheckoutHistoryRepository.update_record rest record_id data
        (r.1, d :: r.2)

/-- The combined persistent state: the decoded contents of the book-store
file and of the checkout-history file. -/
structure LibState where
  books : List Book
  history : List RecordDict
deriving DecidableEq, Repr

/-- Embeds BookService.check_out (src/services/book_service.py lines 81-122),
for a service whose `history_repo` is configured iff `hist = true`; `now`
is `datetime.utcnow().isoformat()` and `fresh` the uuid a successfully
constructed history record would draw.  The linear search with break over
`repo.get_all_books()` is `List.find?`; mutations persisted before a raise
are kept in the returned state.  When history is configured the source
constructs `CheckoutRecord(book_id=..., action="check_out", timestamp=...)`
whose keyword arguments `action` and `timestamp` are not fields of the
dataclass, so the construction raises TypeError before `add_record` runs. -/
def BookService.check_out (hist : Bool) (s : LibState) (book_id : String)
    (now fresh : String) : Except Err Bool × LibState :=
  match s.books.find? (fun b => b.book_id == book_id) with
  | Option.none => (.error .bookNotFound, s)
  | some found =>
      match found.check_out with
      | .error e => (.error e, s)
      | .ok b1 =>
          let found2 := { b1 with last_checkout := .str now }
          match BookRepository.update_book s.books book_id
              (.dict [("available", found2.available),
                      ("last_checkout", found2.last_checkout)]) with
          | .error e => (.error e, s)
          | .ok r =>
              let s2 : LibState := { s with books := r.2 }
              if hist then
                match CheckoutRecord.mkKw now fresh
                    [("book_id", .str book_id), ("action", .str "check_out"),
                     ("timestamp", found2.last_checkout)] with
                | .error e => (.error e, s2)
                | .ok rec =>
                    let s3 : LibState := { s2 with history := s2.history ++ [rec.to_dict] }
                    (.ok true, s3)
              else (.ok true, s2)

/-- Embeds BookService.check_in (src/services/book_service.py lines 124-159):
same structure as `check_out` but no timestamp is written to the book;
the history branch again constructs
`CheckoutRecord(book_id=..., action="check_in", timestamp=...)` with
keyword arguments the dataclass does not have, raising TypeError; no
`update_record` or `mark_returned` call occurs anywhere in the service. -/
def BookService.check_in (hist : Bool) (s : LibState) (book_id : String)
    (now fresh : String) : Except Err Bool × LibState :=
  match s.books.find? (fun b => b.book_id == book_id) with
  | Option.none => (.error .bookNotFound, s)
  | some found =>
      match found.check_in with
      | .error e => (.error e, s)
      | .ok b1 =>
          match BookRepository.update_book s.books book_id
              (.dict [("available", b1.available)]) with
          | .error e => (.error e, s)
          | .ok r =>
              let s2 : LibState := { s with books := r.2 }
              if hist then
                match CheckoutRecord.mkKw now fresh
                    [("book_id", .str book_id), ("action", .str "check_in"),
                     ("timestamp", .str now)] with
                | .error e => (.error e, s2)
                | .ok rec =>
                    let s3 : LibState := { s2 with history := s2.history ++ [rec.to_dict] }
                    (.ok true, s3)
              else (.ok true, s2)

/-- Python `str.strip`: drop leading and trailing whitespace.  Implemented
character-wise (rather than through String.trim, whose position arithmetic
does not evaluate inside the kernel) with identical behaviour. -/
def pyStrip (s : String) : String :=
  String.mk (((s.data.dropWhile Char.isWhitespace).reverse.dropWhile Char.isWhitespace).reverse)

/-- Helper for Python `s.split(",")`: accumulate characters up to each
comma. -/
def splitCommaAux : List Char → List Char → List String
  | [], acc => [String.mk acc.reverse]
  | c :: cs, acc =>
      if c = ',' then String.mk acc.reverse :: splitCommaAux cs []
      else splitCommaAux cs (c :: acc)

/-- Python `s.split(",")` (character-wise, same behaviour as the library
splitter for a one-character separator). -/
def pySplitComma (s : String) : List String := splitCommaAux s.data []

/-- The title/author tokenisation of `build_books_from_input`
(src/services/book_service.py lines 171-176): split on commas when a comma
is present (else strip the whole input), then discard blank entries. -/
def cleanParts (input : String) : List String :=
  let parts :=
    if input.data.contains ',' then (pySplitComma input).map pyStrip
    else [pyStrip input]
  parts.filter (fun t => t ≠ "")

/-- Python expression titles[i] if i < len(titles) else titles[-1]
(src/services/book_service.py lines 191-192). -/
def pickAt (xs : List String) (i : Nat) : String :=
  if h : i < xs.length then xs.get ⟨i, h⟩ else (xs.getLast?).getD ""

/-- Embeds BookService.build_books_from_input
(src/services/book_service.py lines 161-194).  `ids i` is the book_id the
i-th constructed Book draws; `Book(title=t, author=a)` leaves the other
attributes at their creation defaults (spec §3).  The function touches no
store: it reads neither repository and its result depends only on its
arguments. -/
def BookService.build_books_from_input (ids : Nat → String)
    (title_input author_input : String) : List Book :=
  let titles := cleanParts title_input
  if titles = [] then []
  else
    let authors0 := cleanParts author_input
    let authors := if authors0 = [] then [""] else authors0
    let max_len := max titles.length authors.length
    (List.range max_len).map (fun i =>
      { book_id := ids i
        title := .str (pickAt titles i)
        author := .str (pickAt authors i) })

/-- One REPL-level operation on the core state machine, tagged with the
wall-clock time and fresh uuid of the call. -/
inductive Op where
  | checkOut (book_id now fresh : String) : Op
  | checkIn (book_id now fresh : String) : Op
deriving DecidableEq, Repr

/-- Apply one operation through the service, keeping the resulting state
(the REPL catches and prints any raised exception and continues). -/
def applyOp (hist : Bool) (s : LibState) : Op → Except Err Bool × LibState
  | .checkOut bid now fresh => BookService.check_out hist s bid now fresh
  | .checkIn bid now fresh => BookService.check_in hist s bid now fresh

/-- Run a sequence of operations from a state. -/
def runOps (hist : Bool) (s : LibState) : List Op → LibState
  | [] => s
  | op :: rest => runOps hist (applyOp hist s op).2 rest

/-- A one-book store with the given availability, used as a concrete test
fixture throughout. -/
def oneBook (avail : Bool) : LibState :=
  { books := [{ book_id := "b1", title := .str "Dune", author := .str "Frank Herbert",
                available := .bool avail }],
    history := [] }

/-- A stored history record is "open" when its `returned_at` deserializes
to None (spec glossary: open record). -/
def openRec (d : RecordDict) : Bool :=
  (fromIso d.returned_at).isNone

/-- Number of open records for a given book in the stored history. -/
def openCount (h : List RecordDict) (bid : String) : Nat :=
  (h.filter (fun d => d.book_id == bid && openRec d)).length

/-- Spec §3 invariant: at most one open Checkout Record per book. -/
def atMostOneOpen (h : List RecordDict) : Bool :=
  h.all (fun d => openCount h d.book_id ≤ 1)

/-- C1: with a history store configured, `check_out` on an available book
does not return success and appends no Checkout Record: the book-store
write commits `available = false`, but the history step raises TypeError
(the `CheckoutRecord` dataclass has no `action`/`timestamp` fields), so the
checkout history stays empty and the operation never succeeds. -/
theorem checkOut_withHistory_typeError :
    (BookService.check_out true (oneBook true) "b1" "2024-01-01T00:00:00" "u1").1
        = .error .typeError
    ∧ ((BookService.check_out true (oneBook true) "b1" "2024-01-01T00:00:00" "u1").2.books.map
        (fun b => (b.book_id, b.available))) = [("b1", .bool false)]
    ∧ (BookService.check_out true (oneBook true) "b1" "2024-01-01T00:00:00" "u1").2.history
        = [] :=
  ⟨rfl, rfl, rfl⟩

/-- C2: running `check_out` then `check_in` on the same book with history
configured leaves the checkout history empty and both calls raise
TypeError: no Checkout Record is ever created, so no record has
`returned_at` set by the history store's update operation (which the
service never calls), contradicting the claimed post-state. -/
theorem checkOut_checkIn_never_sets_returned_at :
    (BookService.check_out true (oneBook true) "b1" "2024-01-01T00:00:00" "u1").1
        = .error .typeError
    ∧ (BookService.check_in true
        (BookService.check_out true (oneBook true) "b1" "2024-01-01T00:00:00" "u1").2
        "b1" "2024-01-02T00:00:00" "u2").1 = .error .typeError
    ∧ (BookService.check_in true
        (BookService.check_out true (oneBook true) "b1" "2024-01-01T00:00:00" "u1").2
        "b1" "2024-01-02T00:00:00" "u2").2.history = []
    ∧ ((BookService.check_in true
        (BookService.check_out true (oneBook true) "b1" "2024-01-01T00:00:00" "u1").2
        "b1" "2024-01-02T00:00:00" "u2").2.books.map
        (fun b => (b.book_id, b.available))) = [("b1", .bool true)] :=
  ⟨rfl, rfl, rfl, rfl⟩

/-- C3: `check_in` on a checked-out book with history configured and no open
Checkout Record does commit `available = true` to the book store, but then
raises a hard TypeError (the history append constructs the dataclass with
nonexistent keyword arguments) instead of reporting a non-fatal
HistoryInconsistency warning — contradicting "never raises a hard error". -/
theorem checkIn_no_open_record_raises :
    (BookService.check_in true (oneBook false) "b1" "2024-01-03T00:00:00" "u3").1
        = .error .typeError
    ∧ ((BookService.check_in true (oneBook false) "b1" "2024-01-03T00:00:00" "u3").2.books.map
        (fun b => (b.book_id, b.available))) = [("b1", .bool true)] :=
  ⟨rfl, rfl⟩

/-- C4: when steps 1-4 of `check_out` succeed (the transition is persisted:
the stored book becomes unavailable) but the step-5 history write fails,
the operation's overall result is a plain error carrying no record of the
successful book-state transition: the caller cannot distinguish "book state
changed, history write failed" from "nothing changed", contradicting the
claimed reporting discipline. -/
theorem historyFailure_conflated_with_total_failure :
    (BookService.check_out true (oneBook true) "b1" "2024-02-01T00:00:00" "u4").1
        = .error .typeError
    ∧ (BookService.check_out true (oneBook true) "b1" "2024-02-01T00:00:00" "u4").2.books
        ≠ (oneBook true).books :=
  ⟨rfl, by decide⟩

/-- C6: `check_out` of a book_id absent from the book store fails with
NotFound before any write: both stores are returned unchanged. -/
theorem checkOut_missing_notFound (hist : Bool) (s : LibState) (bid now fresh : String)
    (habsent : s.books.find? (fun b => b.book_id == bid) = Option.none) :
    BookService.check_out hist s bid now fresh = (.error .bookNotFound, s) := by
  unfold BookService.check_out
  rw [habsent]

/-- Witness for C6: checking out "missing-id" on an empty store. -/
theorem checkOut_missing_notFound_witness :
    (([] : List Book).find? (fun b => b.book_id == "missing-id") = Option.none)
    ∧ BookService.check_out true ⟨[], []⟩ "missing-id" "t" "u"
        = (.error .bookNotFound, ⟨[], []⟩) := by
  exact ⟨rfl, checkOut_missing_notFound true ⟨[], []⟩ "missing-id" "t" "u" rfl⟩

/-- Python setattr through Book.setField never touches the identity field. -/
theorem Book.setField_book_id (b : Book) (k : String) (v : Value) :
    (b.setField k v).book_id = b.book_id := by
  unfold Book.setField
  repeat' split
  all_goals rfl

/-- Unfolding one step of the repository update loop body. -/
theorem applyEntries_cons (b : Book) (kv : String × Value)
    (rest : List (String × Value)) :
    applyEntries b (kv :: rest)
      = applyEntries
          (if kv.1 = "book_id" then b
           else if bookFieldNames.contains kv.1 then b.setField kv.1 kv.2 else b)
          rest := by
  unfold applyEntries
  rw [List.foldl_cons]

/-- The repository update loop body never touches the identity field. -/
theorem applyEntries_book_id (entries : List (String × Value)) (b : Book) :
    (applyEntries b entries).book_id = b.book_id := by
  induction entries generalizing b with
  | nil => rfl
  | cons kv rest ih =>
      rw [applyEntries_cons, ih]
      split
      · rfl
      · split
        · exact Book.setField_book_id b kv.1 kv.2
        · rfl

/-- When some record matches, the update loop reports a match. -/
theorem updateLoop_found (books : List Book) (bid : String)
    (entries : List (String × Value)) (b : Book)
    (h : books.find? (fun x => x.book_id == bid) = some b) :
    (updateLoop books bid entries).1 = true := by
  induction books with
  | nil => simp [List.find?] at h
  | cons hd rest ih =>
      by_cases hm : (hd.book_id == bid) = true
      · simp [updateLoop, hm]
      · rw [List.find?_cons_of_neg rest hm] at h
        simp [updateLoop, hm, ih h]

/-- When no record matches, the update loop changes nothing. -/
theorem updateLoop_not_found (books : List Book) (bid : String)
    (entries : List (String × Value))
    (h : books.find? (fun x => x.book_id == bid) = Option.none) :
    updateLoop books bid entries = (false, books) := by
  induction books with
  | nil => rfl
  | cons hd rest ih =>
      by_cases hm : (hd.book_id == bid) = true
      · rw [List.find?_cons_of_pos rest hm] at h
        exact absurd h (by simp)
      · rw [List.find?_cons_of_neg rest hm] at h
        simp [updateLoop, hm, ih h]

/-- Looking up the updated book after the update loop yields the first
matching record with the entries applied. -/
theorem updateLoop_find? (books : List Book) (bid : String)
    (entries : List (String × Value)) :
    ((updateLoop books bid entries).2).find? (fun x => x.book_id == bid)
      = (books.find? (fun x => x.book_id == bid)).map (fun b => applyEntries b entries) := by
  induction books with
  | nil => rfl
  | cons hd rest ih =>
      by_cases hm : (hd.book_id == bid) = true
      · have hp : ((applyEntries hd entries).book_id == bid) = true := by
          rw [applyEntries_book_id]; exact hm
        simp only [updateLoop, hm, if_true]
        rw [List.find?_cons_of_pos rest hp, List.find?_cons_of_pos rest hm]
        rfl
      · simp only [updateLoop]
        rw [if_neg hm]
        show (hd :: (updateLoop rest bid entries).2).find? (fun x => x.book_id == bid)
          = ((hd :: rest).find? (fun x => x.book_id == bid)).map (fun b => applyEntries b entries)
        rw [List.find?_cons_of_neg ((updateLoop rest bid entries).2) hm,
            List.find?_cons_of_neg rest hm]
        exact ih

/-- Service check_out on a found but unavailable book fails with
InvalidStateTransition before any write. -/
theorem checkOut_unavailable (hist : Bool) (s : LibState) (bid now fresh : String)
    (b : Book) (hfind : s.books.find? (fun x => x.book_id == bid) = some b)
    (hav : b.available.truthy = false) :
    BookService.check_out hist s bid now fresh = (.error .invalidState, s) := by
  unfold BookService.check_out
  rw [hfind]
  simp [Book.check_out, hav]

/-- Service check_out on a found, available book persists
`available = false` and the checkout stamp to the book store; with history
configured the result is the TypeError raised by the record construction,
otherwise success. -/
theorem checkOut_available (hist : Bool) (s : LibState) (bid now fresh : String)
    (b : Book) (hfind : s.books.find? (fun x => x.book_id == bid) = some b)
    (hav : b.available.truthy = true) :
    BookService.check_out hist s bid now fresh
      = (if hist then .error Err.typeError else .ok true,
         { s with books := (updateLoop s.books bid
             [("available", Value.bool false), ("last_checkout", Value.str now)]).2 }) := by
  have hloop := updateLoop_found s.books bid
      [("available", Value.bool false), ("last_checkout", Value.str now)] b hfind
  unfold BookService.check_out
  rw [hfind]
  cases hist <;>
    simp [Book.check_out, hav, BookRepository.update_book, hloop,
      CheckoutRecord.mkKw, checkoutRecordFieldNames]

/-- C5: calling `check_out` twice in succession on the same book_id without
an intervening check_in fails with InvalidStateTransition on the second
call; the failed second call performs no write (the state after it equals
the state after the first call, in both stores), and the stored book's
`available` remains false. -/
theorem checkOut_twice_invalidState (hist : Bool) (s : LibState)
    (bid t1 u1 t2 u2 : String) (b : Book)
    (hfind : s.books.find? (fun x => x.book_id == bid) = some b)
    (hav : b.available.truthy = true) :
    (BookService.check_out hist (BookService.check_out hist s bid t1 u1).2 bid t2 u2).1
        = .error .invalidState
    ∧ (BookService.check_out hist (BookService.check_out hist s bid t1 u1).2 bid t2 u2).2
        = (BookService.check_out hist s bid t1 u1).2
    ∧ ∃ b2, (BookService.check_out hist s bid t1 u1).2.books.find?
          (fun x => x.book_id == bid) = some b2 ∧ b2.available = Value.bool false := by
  have h1 := checkOut_available hist s bid t1 u1 b hfind hav
  have hs1 : (BookService.check_out hist s bid t1 u1).2
      = { s with books := (updateLoop s.books bid
          [("available", Value.bool false), ("last_checkout", Value.str t1)]).2 } := by
    rw [h1]
  have hfind1 : (BookService.check_out hist s bid t1 u1).2.books.find?
      (fun x => x.book_id == bid)
      = some (applyEntries b [("available", Value.bool false), ("last_checkout", Value.str t1)]) := by
    rw [hs1]
    show ((updateLoop s.books bid _).2).find? _ = _
    rw [updateLoop_find?, hfind]
    rfl
  have havail2 : (applyEntries b
      [("available", Value.bool false), ("last_checkout", Value.str t1)]).available
      = Value.bool false := rfl
  have htr : (applyEntries b
      [("available", Value.bool false), ("last_checkout", Value.str t1)]).available.truthy
      = false := by rw [havail2]; rfl
  have h2 := checkOut_unavailable hist (BookService.check_out hist s bid t1 u1).2 bid t2 u2
      _ hfind1 htr
  exact ⟨by rw [h2], by rw [h2], ⟨_, hfind1, havail2⟩⟩

/-- Witness for C5 at a concrete one-book store with history configured. -/
theorem checkOut_twice_invalidState_witness :
    (oneBook true).books.find? (fun x => x.book_id == "b1")
        = some { book_id := "b1", title := .str "Dune", author := .str "Frank Herbert",
                 available := .bool true }
    ∧ (Value.bool true).truthy = true
    ∧ (BookService.check_out true
        (BookService.check_out true (oneBook true) "b1" "T1" "U1").2 "b1" "T2" "U2").1
        = .error .invalidState := by
  have h := checkOut_twice_invalidState true (oneBook true) "b1" "T1" "U1" "T2" "U2"
      { book_id := "b1", title := .str "Dune", author := .str "Frank Herbert",
        available := .bool true } rfl rfl
  exact ⟨rfl, rfl, h.1⟩

/-- Service check_out never modifies the checkout-history store: every path either
raises before the history step or (with history configured) raises
TypeError constructing the record, before `add_record` can run. -/
theorem checkOut_history (hist : Bool) (s : LibState) (bid now fresh : String) :
    (BookService.check_out hist s bid now fresh).2.history = s.history := by
  unfold BookService.check_out
  cases hist <;> split <;> try rfl
  all_goals (split <;> try rfl)
  all_goals (simp only [BookRepository.update_book]; split <;> rfl)

/-- Service check_in never modifies the checkout-history store, for the same
reason as `check_out`. -/
theorem checkIn_history (hist : Bool) (s : LibState) (bid now fresh : String) :
    (BookService.check_in hist s bid now fresh).2.history = s.history := by
  unfold BookService.check_in
  cases hist <;> split <;> try rfl
  all_goals (split <;> try rfl)
  all_goals (simp only [BookRepository.update_book]; split <;> rfl)

/-- A single service operation leaves the history file untouched. -/
theorem applyOp_history (hist : Bool) (s : LibState) (op : Op) :
    (applyOp hist s op).2.history = s.history := by
  cases op with
  | checkOut bid now fresh => exact checkOut_history hist s bid now fresh
  | checkIn bid now fresh => exact checkIn_history hist s bid now fresh

/-- A sequence of service operations leaves the history file untouched. -/
theorem runOps_history (hist : Bool) (s : LibState) (ops : List Op) :
    (runOps hist s ops).history = s.history := by
  induction ops generalizing s with
  | nil => rfl
  | cons op rest ih =>
      unfold runOps
      rw [ih, applyOp_history]

/-- C7: over every sequence of check_out/check_in operations from a state
whose history satisfies the invariant, the invariant "at most one open
Checkout Record per book" still holds afterwards, and every record whose
`returned_at` is set survives with that value intact (no operation clears
or overwrites it).  It holds degenerately: no operation ever writes to the
history store (see the C1/C2 theorems). -/
theorem history_invariant_preserved (hist : Bool) (s : LibState) (ops : List Op)
    (hinv : atMostOneOpen s.history = true) :
    atMostOneOpen (runOps hist s ops).history = true
    ∧ ∀ d ∈ s.history, (fromIso d.returned_at).isSome →
        d ∈ (runOps hist s ops).history := by
  rw [runOps_history]
  exact ⟨hinv, fun d hd _ => hd⟩

/-- Witness for C7: a history with one open and one closed record for the
same book, run through a checkout and a check-in. -/
theorem history_invariant_preserved_witness :
    atMostOneOpen
        [⟨some "r1", "b1", none, some "2024-01-01T00:00:00", some "2024-01-02T00:00:00", none⟩,
         ⟨some "r2", "b1", none, some "2024-01-03T00:00:00", none, none⟩] = true
    ∧ atMostOneOpen (runOps true
        ⟨[⟨"b1", .none, .none, .none, .none, .none, .none, .none, .bool true, .none⟩],
         [⟨some "r1", "b1", none, some "2024-01-01T00:00:00", some "2024-01-02T00:00:00", none⟩,
          ⟨some "r2", "b1", none, some "2024-01-03T00:00:00", none, none⟩]⟩
        [Op.checkOut "b1" "T1" "U1", Op.checkIn "b1" "T2" "U2"]).history = true := by
  exact ⟨by decide,
    (history_invariant_preserved true
      ⟨[⟨"b1", .none, .none, .none, .none, .none, .none, .none, .bool true, .none⟩],
       [⟨some "r1", "b1", none, some "2024-01-01T00:00:00", some "2024-01-02T00:00:00", none⟩,
        ⟨some "r2", "b1", none, some "2024-01-03T00:00:00", none, none⟩]⟩
      [Op.checkOut "b1" "T1" "U1", Op.checkIn "b1" "T2" "U2"] (by decide)).1⟩

/-- The update loop preserves both the length of the store and the identity
of the record at every position. -/
theorem updateLoop_book_id_at (books : List Book) (bid : String)
    (entries : List (String × Value)) (i : Nat) :
    (((updateLoop books bid entries).2).get? i).map Book.book_id
      = (books.get? i).map Book.book_id := by
  induction books generalizing i with
  | nil => rfl
  | cons hd rest ih =>
      by_cases hm : (hd.book_id == bid) = true
      · simp only [updateLoop, hm, if_true]
        cases i with
        | zero => simp [applyEntries_book_id]
        | succ n => rfl
      · simp only [updateLoop]
        rw [if_neg hm]
        cases i with
        | zero => rfl
        | succ n =>
            show (((updateLoop rest bid entries).2).get? n).map Book.book_id
              = (rest.get? n).map Book.book_id
            exact ih n

/-- Mapping entries whose keys are not (non-identity) fields of the record
type have no effect on the repository update. -/
theorem applyEntries_filter (entries : List (String × Value)) (b : Book) :
    applyEntries b (entries.filter
        (fun kv => !(kv.1 == "book_id") && bookFieldNames.contains kv.1))
      = applyEntries b entries := by
  induction entries generalizing b with
  | nil => rfl
  | cons kv rest ih =>
      rw [List.filter_cons, applyEntries_cons]
      by_cases h1 : kv.1 = "book_id"
      · have hp : (!(kv.1 == "book_id") && bookFieldNames.contains kv.1) = false := by
          simp [h1]
        rw [hp, if_neg (by simp), if_pos h1]
        exact ih b
      · by_cases h2 : bookFieldNames.contains kv.1 = true
        · have hb : (kv.1 == "book_id") = false := by simpa using h1
          have hp : (!(kv.1 == "book_id") && bookFieldNames.contains kv.1) = true := by
            rw [hb, Bool.not_false, Bool.true_and]; exact h2
          rw [hp, if_pos rfl, applyEntries_cons, if_neg h1, if_pos h2]
          exact ih _
        · have hc : bookFieldNames.contains kv.1 = false := by simpa using h2
          have hp : (!(kv.1 == "book_id") && bookFieldNames.contains kv.1) = false := by
            rw [hc, Bool.and_false]
          rw [hp, if_neg (by simp), if_neg h1, if_neg h2]
          exact ih b

/-- Filtering out the ineffective mapping entries does not change the
update loop at all. -/
theorem updateLoop_filter (books : List Book) (bid : String)
    (entries : List (String × Value)) :
    updateLoop books bid (entries.filter
        (fun kv => !(kv.1 == "book_id") && bookFieldNames.contains kv.1))
      = updateLoop books bid entries := by
  induction books with
  | nil => rfl
  | cons hd rest ih =>
      unfold updateLoop
      by_cases hm : (hd.book_id == bid) = true
      · rw [if_pos hm, if_pos hm, applyEntries_filter]
      · rw [if_neg hm, if_neg hm, ih]

/-- C8: the contract of Book Store `update`: a non-mapping argument fails
with TypeError (the spec's InvalidInput); an absent book_id returns false
and performs no write; no update ever changes any record's `book_id`; and
entries whose keys are not non-identity fields of the Book record type are
ignored (dropping them gives the identical result). -/
theorem update_book_contract (books : List Book) (bid : String)
    (entries : List (String × Value)) (v : Value) :
    BookRepository.update_book books bid (.other v) = .error .typeError
    ∧ (books.find? (fun x => x.book_id == bid) = Option.none →
        BookRepository.update_book books bid (.dict entries) = .ok (false, books))
    ∧ (∀ r books2, BookRepository.update_book books bid (.dict entries) = .ok (r, books2) →
        ∀ i, (books2.get? i).map Book.book_id = (books.get? i).map Book.book_id)
    ∧ BookRepository.update_book books bid
        (.dict (entries.filter (fun kv => !(kv.1 == "book_id") && bookFieldNames.contains kv.1)))
        = BookRepository.update_book books bid (.dict entries) := by
  refine ⟨rfl, ?_, ?_, ?_⟩
  · intro hnone
    have hl := updateLoop_not_found books bid entries hnone
    simp [BookRepository.update_book, hl]
  · intro r books2 h i
    simp only [BookRepository.update_book] at h
    split at h
    · rw [Except.ok.injEq, Prod.mk.injEq] at h
      rw [← h.2]
      exact updateLoop_book_id_at books bid entries i
    · rw [Except.ok.injEq, Prod.mk.injEq] at h
      rw [← h.2]
  · simp only [BookRepository.update_book]
    rw [updateLoop_filter]

/-- Witness for C8 at a one-book store and an absent id. -/
theorem update_book_contract_witness :
    BookRepository.update_book
        [⟨"b1", .none, .none, .none, .none, .none, .none, .none, .bool true, .none⟩]
        "zz" (.other (.int 7)) = .error .typeError
    ∧ ([⟨"b1", .none, .none, .none, .none, .none, .none, .none, .bool true, .none⟩]
          : List Book).find? (fun x => x.book_id == "zz") = Option.none
    ∧ BookRepository.update_book
        [⟨"b1", .none, .none, .none, .none, .none, .none, .none, .bool true, .none⟩]
        "zz" (.dict [("title", .str "X")])
        = .ok (false, [⟨"b1", .none, .none, .none, .none, .none, .none, .none, .bool true, .none⟩]) := by
  have h := update_book_contract
      [⟨"b1", .none, .none, .none, .none, .none, .none, .none, .bool true, .none⟩]
      "zz" [("title", .str "X")] (.int 7)
  exact ⟨h.1, rfl, h.2.1 rfl⟩

/-- Counterexample to C9: with a blank title input and three authors, the
claimed record count max(len(titles), len(authors)) is 3, but
`build_books_from_input` returns the empty list (the source returns `[]`
whenever the cleaned title list is empty, regardless of the authors). -/
theorem build_books_count_counterexample :
    (BookService.build_books_from_input (fun i => toString i) "" "a,b,c").length = 0
    ∧ max (cleanParts "").length (cleanParts "a,b,c").length = 3
    ∧ (BookService.build_books_from_input (fun i => toString i) "" "a,b,c").length
        ≠ max (cleanParts "").length (cleanParts "a,b,c").length :=
  ⟨rfl, rfl, by decide⟩

/-- C9 (amended): `build_books_from_input` splits the two inputs on commas
and discards blank entries; when the cleaned title list is empty it returns
the empty sequence regardless of the authors; otherwise, with an empty
author list replaced by a single empty-string author, it returns exactly
max(len(titles), len(authors)) Book Records whose i-th element pairs the
i-th (or last) title with the i-th (or last) author.  The function is pure:
it takes no store and returns only freshly built records. -/
theorem build_books_amended (ids : Nat → String) (t a : String) :
    (cleanParts t = [] → BookService.build_books_from_input ids t a = [])
    ∧ (cleanParts t ≠ [] →
        (BookService.build_books_from_input ids t a).length
          = max (cleanParts t).length
              (if cleanParts a = [] then [""] else cleanParts a).length
        ∧ ∀ i, i < max (cleanParts t).length
              (if cleanParts a = [] then [""] else cleanParts a).length →
            (BookService.build_books_from_input ids t a).get? i
              = some { book_id := ids i,
                       title := Value.str (pickAt (cleanParts t) i),
                       author := Value.str
                         (pickAt (if cleanParts a = [] then [""] else cleanParts a) i) }) := by
  constructor
  · intro h
    unfold BookService.build_books_from_input
    rw [if_pos h]
  · intro h
    unfold BookService.build_books_from_input
    rw [if_neg h]
    constructor
    · rw [List.length_map, List.length_range]
    · intro i hi
      rw [List.get?_map, List.get?_range hi]
      rfl

/-- Witness for the amended C9 on the input "x,y" / "p". -/
theorem build_books_amended_witness :
    cleanParts "x,y" ≠ []
    ∧ (BookService.build_books_from_input (fun i => toString i) "x,y" "p").length
        = max (cleanParts "x,y").length
            (if cleanParts "p" = [] then [""] else cleanParts "p").length := by
  have h := build_books_amended (fun i => toString i) "x,y" "p"
  exact ⟨by decide, (h.2 (by decide)).1⟩

/-- C10: a persisted history entry whose `checkout_at` is null or absent
does not round-trip through deserialization: `CheckoutRecord.from_dict`
(hence the history store's `get_all_records`) substitutes the wall-clock
time of the read for the missing value, so two reads of the same file at
different times yield different `checkout_at` values, and serializing the
parsed record back no longer has a null `checkout_at`. -/
theorem from_dict_missing_checkout_at (d : RecordDict) (now1 now2 f1 f2 : String)
    (fs : Nat → String)
    (hmiss : d.checkout_at = Option.none) (hne : now1 ≠ now2) :
    (CheckoutRecord.from_dict now1 f1 d).checkout_at = now1
    ∧ (CheckoutRecord.from_dict now2 f2 d).checkout_at = now2
    ∧ (CheckoutRecord.from_dict now1 f1 d).checkout_at
        ≠ (CheckoutRecord.from_dict now2 f2 d).checkout_at
    ∧ ((CheckoutRecord.from_dict now1 f1 d).to_dict).checkout_at ≠ d.checkout_at
    ∧ (CheckoutHistoryRepository.get_all_records now1 fs [d]).map
        (fun r => r.checkout_at)
        ≠ (CheckoutHistoryRepository.get_all_records now2 fs [d]).map
            (fun r => r.checkout_at) := by
  have h1 : (CheckoutRecord.from_dict now1 f1 d).checkout_at = now1 := by
    simp [CheckoutRecord.from_dict, hmiss, fromIso]
  have h2 : (CheckoutRecord.from_dict now2 f2 d).checkout_at = now2 := by
    simp [CheckoutRecord.from_dict, hmiss, fromIso]
  refine ⟨h1, h2, ?_, ?_, ?_⟩
  · rw [h1, h2]; exact hne
  · rw [hmiss]
    simp [CheckoutRecord.to_dict, toIso]
  · show ¬ ([(CheckoutRecord.from_dict now1 (fs 0) d)].map (fun r => r.checkout_at)
        = [(CheckoutRecord.from_dict now2 (fs 0) d)].map (fun r => r.checkout_at))
    have h1a : (CheckoutRecord.from_dict now1 (fs 0) d).checkout_at = now1 := by
      simp [CheckoutRecord.from_dict, hmiss, fromIso]
    have h2a : (CheckoutRecord.from_dict now2 (fs 0) d).checkout_at = now2 := by
      simp [CheckoutRecord.from_dict, hmiss, fromIso]
    simp [h1a, h2a, hne]

/-- Witness for C10 on a concrete entry with a null `checkout_at` read at
two different times. -/
theorem from_dict_missing_checkout_at_witness :
    (⟨some "r1", "b1", none, none, some "2024-01-05T00:00:00", none⟩ : RecordDict).checkout_at
        = Option.none
    ∧ ("2024-06-01T00:00:00" : String) ≠ "2024-06-02T00:00:00"
    ∧ (CheckoutRecord.from_dict "2024-06-01T00:00:00" "f1"
        ⟨some "r1", "b1", none, none, some "2024-01-05T00:00:00", none⟩).checkout_at
        = "2024-06-01T00:00:00" := by
  have h := from_dict_missing_checkout_at
      ⟨some "r1", "b1", none, none, some "2024-01-05T00:00:00", none⟩
      "2024-06-01T00:00:00" "2024-06-02T00:00:00" "f1" "f2" (fun _ => "g")
      rfl (by decide)
  exact ⟨rfl, by decide, h.1⟩
